import Mathlib

/-!
Verification development for a macOS dictation hotkey tool (`main.go`).

The program listens for global key events, classifies presses of a trigger
key ("globe", rawcode 179) into single/double presses by inter-press timing,
coordinates a shared `dictating` flag with a concurrent audio recording
loop, converts recorded float samples to 16-bit integers for a WAV file,
uploads the file to a transcription endpoint, and types the result.

The definitions below are a shallow embedding of the Go source:
times are integer nanoseconds (Go `time.Time` measured from its zero value,
with `time.Duration` subtraction saturating at the int64 bounds), audio
samples are rationals standing for the float values, and effectful steps
(stream open/start/read, HTTP send, file removal) take explicit
success/failure inputs describing the environment.
-/

/-! ## Constants from `main.go` -/

def sampleRate : Nat := 44100

def channels : Nat := 1

def globeKeyCode : Nat := 179

/-- `doublePressTime = 500 * time.Millisecond`, in nanoseconds. -/
def doublePressTime : Int := 500000000

/-! ## Go time model

`time.Time` values are modelled as integer nanoseconds measured from the
zero `time.Time` (January 1, year 1).  `time.Duration` is an `int64` count
of nanoseconds and `Time.Sub` saturates at the `int64` bounds. -/

def maxDuration : Int := 2 ^ 63 - 1

def minDuration : Int := -(2 ^ 63)

/-- Go `t.Sub(u)`: the difference in nanoseconds, saturating at the
`time.Duration` (int64) bounds. -/
def timeSub (t u : Int) : Int := max minDuration (min maxDuration (t - u))

/-- The zero `time.Time` value, origin of our time scale. -/
def goZeroTime : Int := 0

/-- Nanoseconds from the zero `time.Time` to the Unix epoch (62135596800
seconds); every `time.Now()` reading on a real clock is at least this. -/
def unixEpochNs : Int := 62135596800 * 1000000000

/-! ## Key gesture classifier (`handleKeyEvent`, `handleDoublePress`,
`handleSinglePress`, `listenForKeyboardEvents`) -/

inductive Press where
  | single
  | double
deriving DecidableEq, Repr

/-- The timing test at `main.go:125`: a press is a double press exactly
when the elapsed time since the last recorded globe press is strictly
below the window. -/
def classifyPress (now last : Int) : Press :=
  if timeSub now last < doublePressTime then Press.double else Press.single

/-- `handleDoublePress` (main.go:133-139) acting on the `dictating` flag,
with a counter for sessions spawned by `go startTranscription(ctx)`. -/
def handleDoublePress (dictating : Bool) (sessions : Nat) : Bool × Nat :=
  if !dictating then (true, sessions + 1) else (dictating, sessions)

/-- `handleSinglePress` (main.go:141-146) acting on the `dictating` flag. -/
def handleSinglePress (dictating : Bool) : Bool :=
  if dictating then false else dictating

inductive EvKind where
  | keyDown
  | keyHold
  | keyUp
  | other
deriving DecidableEq, Repr

structure KeyEvent where
  kind : EvKind
  rawcode : Nat
deriving DecidableEq, Repr

/-- The classifier-owned state: `lastGlobePressTime`, the shared
`dictating` flag, and the number of spawned transcription sessions. -/
structure ClassifierState where
  lastGlobePressTime : Int
  dictating : Bool
  sessions : Nat
deriving DecidableEq, Repr

/-- `handleKeyEvent` (main.go:119-131): ignore non-trigger keys; otherwise
classify by elapsed time, dispatch to the double/single handler, and record
`now` as the new last-press time regardless of classification. -/
def handleKeyEvent (ev : KeyEvent) (now : Int) (s : ClassifierState) :
    ClassifierState :=
  if ev.rawcode ≠ globeKeyCode then s
  else
    let s1 :=
      if timeSub now s.lastGlobePressTime < doublePressTime then
        let p := handleDoublePress s.dictating s.sessions
        { s with dictating := p.1, sessions := p.2 }
      else
        { s with dictating := handleSinglePress s.dictating }
    { s1 with lastGlobePressTime := now }

/-- State of the `listenForKeyboardEvents` loop (main.go:84-117). -/
structure ListenerState where
  cs : ClassifierState
  ctrlPressed : Bool
  cancelled : Bool
  stopped : Bool
deriving DecidableEq, Repr

/-- Initial state at main.go:90: `lastGlobePressTime` is the zero
`time.Time`, `dictating` is false, no sessions, Ctrl not held. -/
def initialClassifierState : ClassifierState :=
  { lastGlobePressTime := goZeroTime, dictating := false, sessions := 0 }

def initialListenerState : ListenerState :=
  { cs := initialClassifierState, ctrlPressed := false,
    cancelled := false, stopped := false }

/-- One iteration of the event loop (main.go:98-114): Ctrl (rawcode 59)
sets the modifier flag, Ctrl+C (rawcode 8 while Ctrl held) cancels and
stops the loop, any other down/hold clears the modifier flag and goes to
`handleKeyEvent`; key-up of Ctrl clears the modifier flag. -/
def listenStep (ls : ListenerState) (ev : KeyEvent) (now : Int) :
    ListenerState :=
  if ls.stopped then ls
  else if ev.kind = EvKind.keyDown ∨ ev.kind = EvKind.keyHold then
    if ev.rawcode = 59 then { ls with ctrlPressed := true }
    else if ev.rawcode = 8 ∧ ls.ctrlPressed then
      { ls with cancelled := true, stopped := true }
    else
      { ls with ctrlPressed := false, cs := handleKeyEvent ev now ls.cs }
  else if ev.kind = EvKind.keyUp then
    if ev.rawcode = 59 then { ls with ctrlPressed := false } else ls
  else ls

/-- The classification sequence of a list of globe-press times, threading
the last-press time exactly as `handleKeyEvent` does (`last := now` after
every press). -/
def classifySeq : Int → List Int → List Press
  | _, [] => []
  | last, t :: ts => classifyPress t last :: classifySeq t ts

/-! ## WAV finalization (`saveAudioToFile`, main.go:274-309)

Audio samples are modelled as rationals (the captured float32 values);
`int(sample * 32767)` is Go's float-to-int conversion, which discards the
fractional part, i.e. truncates toward zero. -/

/-- Go conversion of a floating-point value to `int`: truncation toward
zero. -/
def goTruncToInt (q : ℚ) : Int := if 0 ≤ q then ⌊q⌋ else ⌈q⌉

/-- The sample conversion loop at main.go:287-290: `int(sample * 32767)`
for every captured sample, yielding the 16-bit integer data written into
the WAV file. -/
def saveAudioToFile (samples : List ℚ) : List Int :=
  samples.map (fun sample => goTruncToInt (sample * 32767))

/-! ## Audio recorder (`recordAudio`, main.go:221-272)

The recording goroutine loops `for dictating { select ctx.Done / default:
stream.Read } `; each iteration is described by what it observes: the
`dictating` flag at the loop condition, whether `ctx.Done()` is ready,
whether `stream.Read` fails, and the block of samples delivered.  The
enclosing `recordAudio` call then waits on `ctx.Done()` or the
`recordingDone` channel — which the goroutine closes only after a normal
loop exit, not on its `ctx.Done` or read-error returns. -/

structure IterObs where
  flag : Bool
  ctxDone : Bool
  readErr : Bool
  block : List ℚ

inductive LoopExit where
  | flagCleared
  | ctxCancelled
  | readError
deriving DecidableEq, Repr

/-- The recording goroutine (main.go:238-255): returns the exit cause and
the accumulated samples, or `none` when the supplied observation trace
runs out before the loop exits (the loop is still running). -/
def recordLoop : List IterObs → List ℚ → Option (LoopExit × List ℚ)
  | [], _ => none
  | o :: rest, acc =>
    if o.flag = false then some (LoopExit.flagCleared, acc)
    else if o.ctxDone then some (LoopExit.ctxCancelled, acc)
    else if o.readErr then some (LoopExit.readError, acc)
    else recordLoop rest (acc ++ o.block)

inductive RecError where
  | openErr
  | startErr
  | stopErr
  | saveErr
deriving DecidableEq, Repr

/-- Outcome of a `recordAudio` call: an error return, a successful return
carrying the integer samples written to the WAV file, or `blocked` when
the call has not returned (its final `select` is still waiting). -/
inductive RecResult where
  | err (e : RecError)
  | ok (fileSamples : List Int)
  | blocked
deriving DecidableEq, Repr

/-- Environment of one recording attempt: which effectful steps fail, the
observation trace of the recording loop, and whether the lifecycle context
eventually gets cancelled (unblocking the final `select` after a read
error). -/
structure RecEnv where
  openFail : Bool
  startFail : Bool
  stopFail : Bool
  saveFail : Bool
  obs : List IterObs
  ctxEventuallyCancelled : Bool

/-- What a `recordAudio` call leaves behind: its result, the value of the
shared `dictating` flag as the call leaves it, and whether `stream.Stop()`
completed. -/
structure RecOut where
  result : RecResult
  dictating : Bool
  streamStopped : Bool
deriving DecidableEq, Repr

/-- `recordAudio` (main.go:221-272).  Early error returns from
`portaudio.OpenDefaultStream` / `stream.Start()` leave the flag untouched.
After the loop, the call proceeds past its `select` only when the loop
exited normally (`recordingDone` closed) or the context is/becomes done;
a read-error exit never closes `recordingDone`, so the call stays blocked
until cancellation.  On proceeding it sets `dictating = false`, stops the
stream, and writes the WAV file via `saveAudioToFile`. -/
def recordAudio (dict0 : Bool) (env : RecEnv) : RecOut :=
  if env.openFail then
    { result := RecResult.err RecError.openErr, dictating := dict0,
      streamStopped := false }
  else if env.startFail then
    { result := RecResult.err RecError.startErr, dictating := dict0,
      streamStopped := false }
  else
    match recordLoop env.obs [] with
    | none =>
      { result := RecResult.blocked, dictating := dict0,
        streamStopped := false }
    | some (e, acc) =>
      if e = LoopExit.readError ∧ ¬env.ctxEventuallyCancelled then
        { result := RecResult.blocked, dictating := dict0,
          streamStopped := false }
      else if env.stopFail then
        { result := RecResult.err RecError.stopErr, dictating := false,
          streamStopped := false }
      else if env.saveFail then
        { result := RecResult.err RecError.saveErr, dictating := false,
          streamStopped := true }
      else
        { result := RecResult.ok (saveAudioToFile acc), dictating := false,
          streamStopped := true }

/-! ## Startup (`main`, main.go:43-56)

`os.Getenv` returns the empty string for an unset variable; the missing-key
branch prints via `fmt.Println` (standard output) and calls `os.Exit(1)`. -/

structure MainOut where
  exitCode : Option Nat
  stdoutLines : List String
  stderrLines : List String
  openAIKey : String
deriving DecidableEq, Repr

def apiKeyErrorMsg : String :=
  "Error: OPENAI_API_KEY environment variable not set."

/-- The API-key check at main.go:44-50: `env` is the environment binding of
`OPENAI_API_KEY` (`none` = absent). -/
def mainStartup (env : Option String) : MainOut :=
  let envKey := env.getD ""
  if envKey ≠ "" then
    { exitCode := none, stdoutLines := [], stderrLines := [],
      openAIKey := envKey }
  else
    { exitCode := some 1, stdoutLines := [apiKeyErrorMsg],
      stderrLines := [], openAIKey := "" }

/-! ## Transcription client (`transcribeAudio`, main.go:165-219)

The HTTP response body is modelled as `none` when it is not a JSON object
(decode error) and as the object's string fields otherwise; Go's decode
into `struct { Text string }` leaves `Text` empty when the object has no
"text" field and reports no error. -/

structure TransEnv where
  openFail : Bool
  formFileFail : Bool
  copyFail : Bool
  fieldFail : Bool
  closeFail : Bool
  newReqFail : Bool
  sendFail : Bool
  respBody : Option (List (String × String))
  removeFail : Bool

structure TransOut where
  ret : Except String String
  removeCalled : Bool
  removed : Bool
  warnings : List String
deriving Repr

def removeWarning : String :=
  "Warning: failed to remove temporary audio file"

/-- `transcribeAudio` (main.go:165-219): after a successful decode it
always calls `os.Remove`; a removal failure only appends a warning, and
the decoded text is returned without error either way. -/
def transcribeAudio (env : TransEnv) : TransOut :=
  if env.openFail then
    { ret := Except.error "opening audio file", removeCalled := false,
      removed := false, warnings := [] }
  else if env.formFileFail then
    { ret := Except.error "creating form file", removeCalled := false,
      removed := false, warnings := [] }
  else if env.copyFail then
    { ret := Except.error "copying file to form", removeCalled := false,
      removed := false, warnings := [] }
  else if env.fieldFail then
    { ret := Except.error "writing model field", removeCalled := false,
      removed := false, warnings := [] }
  else if env.closeFail then
    { ret := Except.error "closing multipart writer", removeCalled := false,
      removed := false, warnings := [] }
  else if env.newReqFail then
    { ret := Except.error "creating request", removeCalled := false,
      removed := false, warnings := [] }
  else if env.sendFail then
    { ret := Except.error "sending request", removeCalled := false,
      removed := false, warnings := [] }
  else
    match env.respBody with
    | none =>
      { ret := Except.error "decoding response", removeCalled := false,
        removed := false, warnings := [] }
    | some kvs =>
      if env.removeFail then
        { ret := Except.ok ((kvs.lookup "text").getD ""),
          removeCalled := true, removed := false,
          warnings := [removeWarning] }
      else
        { ret := Except.ok ((kvs.lookup "text").getD ""),
          removeCalled := true, removed := true, warnings := [] }

/-- `startTranscription` (main.go:148-163): the text handed to
`robotgo.TypeStr`, or `none` when the session aborted on a recording or
transcription error. -/
def startTranscription (recResult : Except String (List Int))
    (tOut : TransOut) : Option String :=
  match recResult with
  | Except.error _ => none
  | Except.ok _ =>
    match tOut.ret with
    | Except.error _ => none
    | Except.ok t => some t

/-! ## Helper lemmas -/

theorem timeSub_ge_window (now last : Int) (h : doublePressTime ≤ now - last) :
    doublePressTime ≤ timeSub now last := by
  unfold timeSub doublePressTime maxDuration minDuration at *
  omega

theorem timeSub_of_small (now last : Int) (h0 : 0 ≤ now - last)
    (h : now - last < doublePressTime) : timeSub now last = now - last := by
  unfold timeSub doublePressTime maxDuration minDuration at *
  omega

theorem classifyPress_single_of (now last : Int)
    (h : doublePressTime ≤ now - last) :
    classifyPress now last = Press.single := by
  have hge := timeSub_ge_window now last h
  unfold classifyPress
  rw [if_neg (by omega)]

theorem classifyPress_double_of (now last : Int) (h0 : 0 ≤ now - last)
    (h : now - last < doublePressTime) :
    classifyPress now last = Press.double := by
  unfold classifyPress
  rw [timeSub_of_small now last h0 h, if_pos h]

theorem classifySeq_all_single (last : Int) (ts : List Int)
    (h : List.Chain (fun a b => doublePressTime ≤ b - a) last ts) :
    ∀ p ∈ classifySeq last ts, p = Press.single := by
  induction ts generalizing last with
  | nil => intro p hp; simp [classifySeq] at hp
  | cons t ts ih =>
    rw [List.chain_cons] at h
    intro p hp
    rw [show classifySeq last (t :: ts)
        = classifyPress t last :: classifySeq t ts from rfl] at hp
    rcases List.mem_cons.mp hp with h1 | h1
    · rw [h1]; exact classifyPress_single_of t last h.1
    · exact ih t h.2 p h1

/-! ## Claims -/

/-- C1: a double press while the Dictation Flag is idle sets the flag to
recording and spawns exactly one transcription session; a double press
while recording leaves the flag unchanged and spawns no session; a single
press while recording sets the flag to idle; a single press while idle
leaves the flag unchanged. -/
theorem dictation_flag_transitions (n : Nat) :
    handleDoublePress false n = (true, n + 1)
    ∧ handleDoublePress true n = (true, n)
    ∧ handleSinglePress true = false
    ∧ handleSinglePress false = false :=
  ⟨rfl, rfl, rfl, rfl⟩

/-- Witness for C1 with no session spawned yet. -/
theorem dictation_flag_transitions_witness :
    handleDoublePress false 0 = (true, 1)
    ∧ handleDoublePress true 0 = (true, 0)
    ∧ handleSinglePress true = false
    ∧ handleSinglePress false = false :=
  dictation_flag_transitions 0

/-- C2: every down/hold event of the trigger key reaches `handleKeyEvent`;
there the press is a double press exactly when the elapsed time since the
last recorded press is strictly below the 500 ms window, and the
last-press timestamp becomes `now` regardless of the classification.
Consequently every press in a sequence spaced ≥ window apart is single,
and the second press of a pair spaced < window apart is double. -/
theorem trigger_press_classification
    (ev : KeyEvent) (now : Int) (s : ClassifierState) (ls : ListenerState)
    (hk : ev.rawcode = globeKeyCode)
    (hkind : ev.kind = EvKind.keyDown ∨ ev.kind = EvKind.keyHold)
    (hstop : ls.stopped = false)
    (last0 : Int) (ts : List Int)
    (hchain : List.Chain (fun a b => doublePressTime ≤ b - a) last0 ts)
    (u t1 t2 : Int) (hpos : 0 ≤ t2 - t1) (hlt : t2 - t1 < doublePressTime) :
    (listenStep ls ev now).cs = handleKeyEvent ev now ls.cs
    ∧ (handleKeyEvent ev now s).lastGlobePressTime = now
    ∧ (classifyPress now s.lastGlobePressTime = Press.double
        ↔ timeSub now s.lastGlobePressTime < doublePressTime)
    ∧ (∀ p ∈ classifySeq last0 ts, p = Press.single)
    ∧ classifySeq u [t1, t2] = [classifyPress t1 u, Press.double] := by
  refine ⟨?_, ?_, ?_, classifySeq_all_single last0 ts hchain, ?_⟩
  · unfold listenStep
    rw [hk]
    simp [hstop, hkind, globeKeyCode]
  · unfold handleKeyEvent
    rw [hk]
    simp
  · unfold classifyPress
    split_ifs with h <;> simp [h]
  · rw [show classifySeq u [t1, t2]
        = [classifyPress t1 u, classifyPress t2 t1] from rfl,
      classifyPress_double_of t2 t1 hpos hlt]

/-- Witness for C2 at concrete inputs. -/
theorem trigger_press_classification_witness :
    (listenStep initialListenerState ⟨EvKind.keyDown, 179⟩ unixEpochNs).cs
      = handleKeyEvent ⟨EvKind.keyDown, 179⟩ unixEpochNs
          initialListenerState.cs
    ∧ (∀ p ∈ classifySeq 0 [500000000, 1000000000], p = Press.single)
    ∧ classifySeq 0 [0, 1] = [classifyPress 0 0, Press.double] := by
  have h := trigger_press_classification ⟨EvKind.keyDown, 179⟩ unixEpochNs
    initialClassifierState initialListenerState rfl (Or.inl rfl) rfl
    0 [500000000, 1000000000]
    (List.Chain.cons (by decide) (List.Chain.cons (by decide)
      List.Chain.nil))
    0 0 1 (by decide) (by decide)
  exact ⟨h.1, h.2.2.2.1, h.2.2.2.2⟩

/-- C9: the very first trigger press after start is classified single,
because `lastGlobePressTime` starts at the zero `time.Time` and any real
clock reading (at or after the Unix epoch) saturates the subtraction at
the maximum duration, never below the window; with the flag idle the press
is a no-op apart from recording the timestamp. -/
theorem first_press_always_single (now : Int) (h : unixEpochNs ≤ now) :
    classifyPress now initialClassifierState.lastGlobePressTime
      = Press.single
    ∧ handleKeyEvent ⟨EvKind.keyDown, globeKeyCode⟩ now
        initialClassifierState
      = { initialClassifierState with lastGlobePressTime := now } := by
  have hts : ¬ timeSub now goZeroTime < doublePressTime := by
    unfold timeSub goZeroTime maxDuration minDuration doublePressTime
    unfold unixEpochNs at h
    omega
  constructor
  · unfold classifyPress
    rw [show initialClassifierState.lastGlobePressTime = goZeroTime from rfl,
      if_neg hts]
  · unfold handleKeyEvent
    rw [show initialClassifierState.lastGlobePressTime = goZeroTime from rfl]
    simp [hts, initialClassifierState, handleSinglePress]

/-- C3 counterexample: when `portaudio.OpenDefaultStream` fails,
`recordAudio` returns its error with the dictation flag still at
recording — the flag is not forced back to idle on that outcome. -/
theorem record_flag_reset_cex :
    (recordAudio true ⟨true, false, false, false, [], false⟩).result
      = RecResult.err RecError.openErr
    ∧ (recordAudio true ⟨true, false, false, false, [], false⟩).dictating
      = true :=
  ⟨rfl, rfl⟩

/-- C3 amended: on every recording attempt that gets past opening and
starting the stream and whose loop exits (with a read-error exit only
unblocking once the lifecycle context is cancelled), the dictation flag is
false when `recordAudio` ends, whatever the outcome. -/
theorem record_flag_reset_amended (dict0 : Bool) (env : RecEnv)
    (hopen : env.openFail = false) (hstart : env.startFail = false)
    (e : LoopExit) (acc : List ℚ)
    (hloop : recordLoop env.obs [] = some (e, acc))
    (hread : e = LoopExit.readError → env.ctxEventuallyCancelled = true) :
    (recordAudio dict0 env).dictating = false := by
  have hc : ¬(e = LoopExit.readError
      ∧ ¬env.ctxEventuallyCancelled = true) := by
    rintro ⟨he, hct⟩
    exact hct (hread he)
  simp only [recordAudio, hopen, hstart, hloop]
  rw [if_neg (by simp), if_neg (by simp), if_neg hc]
  split_ifs <;> rfl

/-- Witness for the amended C3: the flag is observed cleared on the first
loop check, the attempt finishes, and the flag ends false. -/
theorem record_flag_reset_amended_witness :
    (recordAudio true ⟨false, false, false, false,
      [⟨false, false, false, []⟩], false⟩).dictating = false :=
  record_flag_reset_amended true
    ⟨false, false, false, false, [⟨false, false, false, []⟩], false⟩
    rfl rfl LoopExit.flagCleared [] rfl (fun h => nomatch h)

/-- The environment of the C4 failing input: the stream read fails on the
first loop iteration while the flag is recording and the lifecycle context
is never cancelled. -/
def readErrorEnv : RecEnv :=
  ⟨false, false, false, false, [⟨true, false, true, []⟩], false⟩

/-- C4 (code bug): on a stream read error the goroutine returns without
closing `recordingDone`, so `recordAudio` never returns while the context
is live — the call stays blocked, the dictation flag stays at recording,
and the stream is never stopped, instead of the session aborting. -/
theorem read_error_blocks_without_return :
    (recordAudio true readErrorEnv).result = RecResult.blocked
    ∧ (recordAudio true readErrorEnv).dictating = true
    ∧ (recordAudio true readErrorEnv).streamStopped = false :=
  ⟨rfl, rfl, rfl⟩

/-- C5: when the lifecycle context is cancelled mid-recording (and the
stream stops and the file writes without error), the attempt still
finalizes the samples captured so far — `recordAudio` returns the WAV data
for them, the stream is stopped, and the flag ends idle. -/
theorem cancellation_finalizes_recording (dict0 : Bool) (env : RecEnv)
    (hopen : env.openFail = false) (hstart : env.startFail = false)
    (hstop : env.stopFail = false) (hsave : env.saveFail = false)
    (acc : List ℚ)
    (hloop : recordLoop env.obs [] = some (LoopExit.ctxCancelled, acc)) :
    (recordAudio dict0 env).result = RecResult.ok (saveAudioToFile acc)
    ∧ (recordAudio dict0 env).streamStopped = true
    ∧ (recordAudio dict0 env).dictating = false := by
  simp only [recordAudio, hopen, hstart, hstop, hsave, hloop]
  rw [if_neg (by simp), if_neg (by simp),
    if_neg (by rintro ⟨he, -⟩; exact nomatch he),
    if_neg (by simp), if_neg (by simp)]
  exact ⟨rfl, rfl, rfl⟩

/-- Witness for C5: one block of samples is captured, then the context is
observed cancelled; the captured block is still written out. -/
theorem cancellation_finalizes_recording_witness :
    (recordAudio true ⟨false, false, false, false,
      [⟨true, false, false, [(1 : ℚ)/2]⟩, ⟨true, true, false, []⟩],
      false⟩).result
      = RecResult.ok (saveAudioToFile [(1 : ℚ)/2])
    ∧ (recordAudio true ⟨false, false, false, false,
      [⟨true, false, false, [(1 : ℚ)/2]⟩, ⟨true, true, false, []⟩],
      false⟩).streamStopped = true
    ∧ (recordAudio true ⟨false, false, false, false,
      [⟨true, false, false, [(1 : ℚ)/2]⟩, ⟨true, true, false, []⟩],
      false⟩).dictating = false :=
  cancellation_finalizes_recording true
    ⟨false, false, false, false,
      [⟨true, false, false, [(1 : ℚ)/2]⟩, ⟨true, true, false, []⟩], false⟩
    rfl rfl rfl rfl [(1 : ℚ)/2] rfl

/-- Witness for C9 at the Unix epoch. -/
theorem first_press_always_single_witness :
    classifyPress unixEpochNs initialClassifierState.lastGlobePressTime
      = Press.single
    ∧ handleKeyEvent ⟨EvKind.keyDown, globeKeyCode⟩ unixEpochNs
        initialClassifierState
      = { initialClassifierState with lastGlobePressTime := unixEpochNs } :=
  first_press_always_single unixEpochNs le_rfl

theorem goTruncToInt_bounds (q : ℚ) :
    |q - (goTruncToInt q : ℚ)| < 1 ∧ |(goTruncToInt q : ℚ)| ≤ |q| := by
  unfold goTruncToInt
  split_ifs with h
  · have h1 := Int.floor_le q
    have h2 := Int.lt_floor_add_one q
    have h3 : (0 : ℚ) ≤ (⌊q⌋ : ℚ) := by exact_mod_cast Int.floor_nonneg.mpr h
    constructor
    · rw [abs_of_nonneg (by linarith)]
      linarith
    · rw [abs_of_nonneg h3, abs_of_nonneg h]
      exact h1
  · push_neg at h
    have h1 := Int.le_ceil q
    have h2 := Int.ceil_lt_add_one q
    have h3 : (⌈q⌉ : ℚ) ≤ 0 := by
      have hc : ⌈q⌉ ≤ (0 : ℤ) := Int.ceil_le.mpr (by exact_mod_cast h.le)
      exact_mod_cast hc
    constructor
    · rw [abs_of_nonpos (by linarith)]
      linarith
    · rw [abs_of_nonpos h3, abs_of_nonpos h.le]
      linarith

/-- C6 counterexample: the sample 1/2 is stored as `int(0.5 * 32767) =
int(16383.5) = 16383`, while rounding would give 16384 — the conversion
truncates, it does not round. -/
theorem finalize_rounding_cex :
    saveAudioToFile [(1 : ℚ)/2] = [16383]
    ∧ round (((1 : ℚ)/2) * 32767) = 16384 := by
  constructor
  · rw [show saveAudioToFile [(1 : ℚ)/2]
        = [goTruncToInt ((1 : ℚ)/2 * 32767)] from rfl]
    unfold goTruncToInt
    rw [if_pos (by norm_num)]
    norm_num
  · rw [round_eq]
    norm_num

/-- C6 amended: each stored integer sample is the truncation toward zero
of `sample * 32767` — within distance 1 of the scaled value, no larger in
magnitude than it, and (for samples in [-1, 1]) within ±32767. -/
theorem finalize_samples_truncate (samples : List ℚ)
    (h : ∀ s ∈ samples, -1 ≤ s ∧ s ≤ 1) :
    List.Forall₂ (fun (s : ℚ) (t : Int) =>
      t = goTruncToInt (s * 32767)
      ∧ |s * 32767 - (t : ℚ)| < 1
      ∧ |(t : ℚ)| ≤ |s * 32767|
      ∧ |(t : ℚ)| ≤ 32767)
      samples (saveAudioToFile samples) := by
  induction samples with
  | nil => simp [saveAudioToFile]
  | cons a as ih =>
    rw [show saveAudioToFile (a :: as)
        = goTruncToInt (a * 32767) :: saveAudioToFile as from rfl]
    constructor
    · obtain ⟨hb1, hb2⟩ := goTruncToInt_bounds (a * 32767)
      refine ⟨rfl, hb1, hb2, hb2.trans ?_⟩
      have ha := h a (List.mem_cons_self a as)
      have haa : |a| ≤ 1 := abs_le.mpr ⟨ha.1, ha.2⟩
      calc |a * 32767| = |a| * |(32767 : ℚ)| := abs_mul a 32767
        _ ≤ 1 * |(32767 : ℚ)| :=
            mul_le_mul_of_nonneg_right haa (abs_nonneg _)
        _ = 32767 := by norm_num
    · exact ih (fun s hs => h s (List.mem_cons_of_mem a hs))

/-- Witness for the amended C6 on the sample list [1/2]. -/
theorem finalize_samples_truncate_witness :
    List.Forall₂ (fun (s : ℚ) (t : Int) =>
      t = goTruncToInt (s * 32767)
      ∧ |s * 32767 - (t : ℚ)| < 1
      ∧ |(t : ℚ)| ≤ |s * 32767|
      ∧ |(t : ℚ)| ≤ 32767)
      [(1 : ℚ)/2] (saveAudioToFile [(1 : ℚ)/2]) :=
  finalize_samples_truncate [(1 : ℚ)/2] (by
    intro s hs
    rw [List.mem_singleton] at hs
    subst hs
    constructor <;> norm_num)

/-- C7 counterexample: with the key absent the process exits with status 1,
but the error message goes to standard output (`fmt.Println`); nothing is
written to standard error. -/
theorem missing_key_message_cex :
    (mainStartup none).exitCode = some 1
    ∧ (mainStartup none).stderrLines = []
    ∧ (mainStartup none).stdoutLines = [apiKeyErrorMsg] :=
  ⟨rfl, rfl, rfl⟩

/-- C7 amended: if the API key variable is absent (or empty), startup
exits with status 1 and prints the error message to standard output, not
standard error. -/
theorem missing_key_exits_nonzero (env : Option String)
    (h : env.getD "" = "") :
    (mainStartup env).exitCode = some 1
    ∧ (mainStartup env).stdoutLines = [apiKeyErrorMsg]
    ∧ (mainStartup env).stderrLines = [] := by
  simp [mainStartup, h]

/-- Witness for the amended C7 with the variable absent. -/
theorem missing_key_exits_nonzero_witness :
    (mainStartup none).exitCode = some 1
    ∧ (mainStartup none).stdoutLines = [apiKeyErrorMsg]
    ∧ (mainStartup none).stderrLines = [] :=
  missing_key_exits_nonzero none rfl

/-- C8: after a successful decode the client always calls `os.Remove`; the
transcript is returned without error, and a removal failure only leaves a
warning while the transcript is still returned. -/
theorem delete_after_transcription (env : TransEnv)
    (kvs : List (String × String))
    (h1 : env.openFail = false) (h2 : env.formFileFail = false)
    (h3 : env.copyFail = false) (h4 : env.fieldFail = false)
    (h5 : env.closeFail = false) (h6 : env.newReqFail = false)
    (h7 : env.sendFail = false) (hb : env.respBody = some kvs) :
    (transcribeAudio env).removeCalled = true
    ∧ (transcribeAudio env).ret = Except.ok ((kvs.lookup "text").getD "")
    ∧ (env.removeFail = true →
        (transcribeAudio env).removed = false
        ∧ (transcribeAudio env).warnings = [removeWarning])
    ∧ (env.removeFail = false →
        (transcribeAudio env).removed = true
        ∧ (transcribeAudio env).warnings = []) := by
  rcases hr : env.removeFail with _ | _ <;>
    simp [transcribeAudio, h1, h2, h3, h4, h5, h6, h7, hb, hr]

/-- Witness for C8: decode succeeds, removal fails; the transcript is
still returned and only a warning is recorded. -/
theorem delete_after_transcription_witness :
    (transcribeAudio ⟨false, false, false, false, false, false, false,
      some [("text", "hello")], true⟩).removeCalled = true
    ∧ (transcribeAudio ⟨false, false, false, false, false, false, false,
      some [("text", "hello")], true⟩).ret = Except.ok "hello"
    ∧ (transcribeAudio ⟨false, false, false, false, false, false, false,
      some [("text", "hello")], true⟩).warnings = [removeWarning] := by
  have h := delete_after_transcription
    ⟨false, false, false, false, false, false, false,
      some [("text", "hello")], true⟩
    [("text", "hello")] rfl rfl rfl rfl rfl rfl rfl rfl
  exact ⟨h.1, by rw [h.2.1]; rfl, (h.2.2.1 rfl).2⟩

/-- C10: a response that is a valid JSON object without a "text" field
decodes into the empty string with no error; the audio file is still
deleted and the session goes on to inject the empty transcript. -/
theorem missing_text_field_empty_transcript (env : TransEnv)
    (kvs : List (String × String)) (fileSamples : List Int)
    (h1 : env.openFail = false) (h2 : env.formFileFail = false)
    (h3 : env.copyFail = false) (h4 : env.fieldFail = false)
    (h5 : env.closeFail = false) (h6 : env.newReqFail = false)
    (h7 : env.sendFail = false) (hb : env.respBody = some kvs)
    (hno : kvs.lookup "text" = none) :
    (transcribeAudio env).ret = Except.ok ""
    ∧ (transcribeAudio env).removeCalled = true
    ∧ startTranscription (Except.ok fileSamples) (transcribeAudio env)
      = some "" := by
  rcases hr : env.removeFail with _ | _ <;>
    simp [transcribeAudio, startTranscription,
      h1, h2, h3, h4, h5, h6, h7, hb, hr, hno]

/-- Witness for C10: an error-object body with no "text" field yields the
empty transcript, deletion, and injection of the empty string. -/
theorem missing_text_field_empty_transcript_witness :
    (transcribeAudio ⟨false, false, false, false, false, false, false,
      some [("error", "quota exceeded")], false⟩).ret = Except.ok ""
    ∧ (transcribeAudio ⟨false, false, false, false, false, false, false,
      some [("error", "quota exceeded")], false⟩).removeCalled = true
    ∧ startTranscription (Except.ok [0])
      (transcribeAudio ⟨false, false, false, false, false, false, false,
        some [("error", "quota exceeded")], false⟩) = some "" :=
  missing_text_field_empty_transcript
    ⟨false, false, false, false, false, false, false,
      some [("error", "quota exceeded")], false⟩
    [("error", "quota exceeded")] [0]
    rfl rfl rfl rfl rfl rfl rfl rfl (by rfl)
